import Mathlib

/-
Verification of the opensnipping capture-session orchestration core.

Shallow embedding of the Rust sources under src-tauri/src:
  - state.rs            : CaptureState, ErrorCode, CaptureError, TransitionError, StateMachine
  - config.rs           : CaptureSource, ContainerFormat, AudioConfig, CaptureConfig, ConfigError
  - capture/mod.rs      : SelectionResult, ScreenshotResult, RecordingResult, CaptureBackendError
  - capture/fake/backend.rs   : FakeCaptureBackend (FakeState here; atomics/mutexes flattened
                                into plain fields, Instant modelled as a Nat clock reading)
  - capture/linux/encoding.rs : encoder lists, get_muxer_for_container,
                                detect_available_audio_encoder (the external GStreamer
                                registry is a parameter: which element names the registry
                                finds and which factories successfully create an element)
  - capture/linux/pipeline.rs : RecordingPipeline (engine effects such as set_state results,
                                bus messages and file existence are environment parameters)
  - capture/linux/backend.rs  : LinuxCaptureBackend (session/recording slots as Options)
  - ipc/errors.rs       : backend_error_to_capture_error
  - ipc/commands.rs     : start_capture (event emission is not modelled; the portal
                          round-trip result is a parameter)
-/

namespace OpenSnipping

/-! ## state.rs -/

/-- CaptureState from state.rs. -/
inductive CaptureState where
  | idle
  | selecting
  | recording
  | paused
  | finalizing
  | error
deriving DecidableEq

/-- ErrorCode from state.rs. -/
inductive ErrorCode where
  | permissionDenied
  | portalError
  | encoderUnavailable
  | pipelineError
  | ioError
  | invalidConfig
  | unknown
deriving DecidableEq

/-- CaptureError from state.rs. -/
structure CaptureError where
  code : ErrorCode
  message : String
deriving DecidableEq

/-- TransitionError from state.rs (Rust fields `from`/`to`; `from` is a Lean keyword,
so the fields are named fromState/toState). -/
structure TransitionError where
  fromState : CaptureState
  toState : CaptureState
  message : String
deriving DecidableEq

/-- StateMachine from state.rs. -/
structure StateMachine where
  state : CaptureState
  last_error : Option CaptureError
deriving DecidableEq

/-- StateMachine::new. -/
def StateMachine.new : StateMachine :=
  { state := CaptureState.idle, last_error := none }

/-- Debug rendering of a state, as used in the TransitionError message. -/
def CaptureState.debugStr : CaptureState → String
  | .idle => "Idle"
  | .selecting => "Selecting"
  | .recording => "Recording"
  | .paused => "Paused"
  | .finalizing => "Finalizing"
  | .error => "Error"

/-- The `valid` match of StateMachine::transition, including the
`(a, b) if a == b` catch-all before the final `false`. -/
def StateMachine.validPair : CaptureState → CaptureState → Bool
  | .idle, .selecting => true
  | .idle, .error => true
  | .selecting, .recording => true
  | .selecting, .idle => true
  | .selecting, .error => true
  | .recording, .paused => true
  | .recording, .finalizing => true
  | .recording, .error => true
  | .paused, .recording => true
  | .paused, .finalizing => true
  | .paused, .error => true
  | .finalizing, .idle => true
  | .finalizing, .error => true
  | .error, .idle => true
  | a, b => a == b

/-- The message built by StateMachine::transition on rejection. -/
def transitionMessage (f t : CaptureState) : String :=
  "Cannot transition from " ++ f.debugStr ++ " to " ++ t.debugStr

/-- StateMachine::transition. Returns the state machine after the call together
with the Result; on rejection the machine is unchanged. -/
def StateMachine.transition (sm : StateMachine) (t : CaptureState) :
    StateMachine × Except TransitionError CaptureState :=
  let f := sm.state
  if StateMachine.validPair f t then
    ({ state := t,
       last_error := if t = CaptureState.error then sm.last_error else none },
     Except.ok t)
  else
    (sm, Except.error { fromState := f, toState := t, message := transitionMessage f t })

/-- StateMachine::set_error: unconditionally records the error and moves to Error
(both fields are overwritten, so the prior machine is unused). -/
def StateMachine.setError (_sm : StateMachine) (e : CaptureError) :
    StateMachine × CaptureState :=
  ({ state := CaptureState.error, last_error := some e }, CaptureState.error)

/-! ## C1: the spec's transition table, written from the claim text (§4.1),
to be compared against the transition operation embedded from state.rs. -/

/-- The transition table exactly as the spec lists it. -/
def specTransitionTable : List (CaptureState × CaptureState) :=
  [(.idle, .selecting), (.idle, .error),
   (.selecting, .recording), (.selecting, .idle), (.selecting, .error),
   (.recording, .paused), (.recording, .finalizing), (.recording, .error),
   (.paused, .recording), (.paused, .finalizing), (.paused, .error),
   (.finalizing, .idle), (.finalizing, .error),
   (.error, .idle)]

/-- C1: the transition operation succeeds exactly on the spec table's edges plus
the from = to no-op; on success the state becomes `t` and a previously recorded
error is cleared unless `t` is Error; on rejection a TransitionError carrying the
source and requested states is returned and the machine is unchanged. -/
theorem transition_matches_spec_table (sm : StateMachine) (t : CaptureState) :
    ((sm.state, t) ∈ specTransitionTable ∨ sm.state = t →
      sm.transition t =
        ({ state := t,
           last_error := if t = CaptureState.error then sm.last_error else none },
         Except.ok t))
    ∧ ((sm.state, t) ∉ specTransitionTable ∧ sm.state ≠ t →
      sm.transition t =
        (sm, Except.error
          { fromState := sm.state, toState := t,
            message := transitionMessage sm.state t })) := by
  obtain ⟨s, le⟩ := sm
  cases s <;> cases t <;>
    simp [StateMachine.transition, StateMachine.validPair, specTransitionTable]

/-- Witness for C1: a table edge (Idle→Selecting) is accepted and clears the error;
a non-edge (Idle→Recording) is rejected with the machine unchanged. -/
theorem transition_matches_spec_table_witness :
    ({ state := .idle, last_error := some ⟨.unknown, "boom"⟩ } : StateMachine).transition
        .selecting
      = ({ state := .selecting, last_error := none }, Except.ok .selecting)
    ∧ StateMachine.new.transition .recording
      = (StateMachine.new, Except.error
          { fromState := .idle, toState := .recording,
            message := transitionMessage .idle .recording }) := by
  constructor
  · have h :=
      (transition_matches_spec_table
        { state := .idle, last_error := some ⟨.unknown, "boom"⟩ } .selecting).1
        (Or.inl (by decide))
    simpa using h
  · have h :=
      (transition_matches_spec_table StateMachine.new .recording).2
        ⟨by decide, by decide⟩
    simpa using h

/-! ## config.rs -/

/-- CaptureSource from config.rs. -/
inductive CaptureSource where
  | screen
  | monitor
  | window
  | region
deriving DecidableEq

/-- ContainerFormat from config.rs. -/
inductive ContainerFormat where
  | mp4
  | mkv
deriving DecidableEq

/-- AudioConfig from config.rs. -/
structure AudioConfig where
  system : Bool
  mic : Bool
deriving DecidableEq

/-- CaptureConfig from config.rs. `fps` is u8 in Rust; it is modelled as Nat
(validation rejects everything outside [1,60] either way). -/
structure CaptureConfig where
  source : CaptureSource
  fps : Nat
  include_cursor : Bool
  audio : AudioConfig
  container : ContainerFormat
  output_path : String
deriving DecidableEq

/-- ConfigError from config.rs. -/
structure ConfigError where
  field : String
  message : String
deriving DecidableEq

/-- CaptureConfig::validate. -/
def CaptureConfig.validate (c : CaptureConfig) : Except ConfigError Unit :=
  if c.fps = 0 ∨ c.fps > 60 then
    Except.error { field := "fps", message := "FPS must be between 1 and 60" }
  else if c.output_path.isEmpty then
    Except.error { field := "output_path", message := "Output path cannot be empty" }
  else
    Except.ok ()

/-! ## capture/mod.rs: data model and backend error taxonomy -/

/-- SelectionResult from capture/mod.rs. -/
structure SelectionResult where
  node_id : Nat
  stream_fd : Option Int
  width : Option Nat
  height : Option Nat
deriving DecidableEq

/-- ScreenshotResult from capture/mod.rs. -/
structure ScreenshotResult where
  path : String
  width : Nat
  height : Nat
deriving DecidableEq

/-- RecordingResult from capture/mod.rs. -/
structure RecordingResult where
  path : String
  duration_ms : Nat
  width : Nat
  height : Nat
deriving DecidableEq

/-- CaptureBackendError from capture/mod.rs. -/
inductive CaptureBackendError where
  | permissionDenied (msg : String)
  | portalError (msg : String)
  | noSourceAvailable (msg : String)
  | notSupported (msg : String)
  | internal (msg : String)
deriving DecidableEq

/-! ## ipc/errors.rs -/

/-- backend_error_to_capture_error from ipc/errors.rs. -/
def backendErrorToCaptureError : CaptureBackendError → CaptureError
  | .permissionDenied msg => { code := ErrorCode.permissionDenied, message := msg }
  | .portalError msg => { code := ErrorCode.portalError, message := msg }
  | .noSourceAvailable msg => { code := ErrorCode.portalError, message := msg }
  | .notSupported msg => { code := ErrorCode.unknown, message := msg }
  | .internal msg => { code := ErrorCode.unknown, message := msg }

/-- C7 counterexample: two distinct backend failure kinds (PortalError and
NoSourceAvailable) are mapped to the same taxonomy code, so the mapping does not
assign a distinct code per kind. -/
theorem backend_error_mapping_not_injective :
    (backendErrorToCaptureError (.noSourceAvailable "x")).code
        = (backendErrorToCaptureError (.portalError "x")).code
    ∧ (CaptureBackendError.noSourceAvailable "x") ≠ (CaptureBackendError.portalError "x") := by
  constructor
  · rfl
  · decide

/-- C7 (amended): the orchestrator's mapping preserves messages and sends
PermissionDenied to PermissionDenied and PortalError to PortalError, but collapses
NoSourceAvailable into PortalError and both NotSupported and Internal into Unknown:
it is not injective on failure kinds. -/
theorem backend_error_mapping_characterization (msg : String) :
    backendErrorToCaptureError (.permissionDenied msg)
        = { code := ErrorCode.permissionDenied, message := msg }
    ∧ backendErrorToCaptureError (.portalError msg)
        = { code := ErrorCode.portalError, message := msg }
    ∧ backendErrorToCaptureError (.noSourceAvailable msg)
        = { code := ErrorCode.portalError, message := msg }
    ∧ backendErrorToCaptureError (.notSupported msg)
        = { code := ErrorCode.unknown, message := msg }
    ∧ backendErrorToCaptureError (.internal msg)
        = { code := ErrorCode.unknown, message := msg } := by
  exact ⟨rfl, rfl, rfl, rfl, rfl⟩

/-! ## ipc/commands.rs: the start_capture command.
AppState holds the state machine and the config/selection slots (lib.rs).
Event emission has no bearing on the claims and is not modelled; the portal
round trip performed by request_selection is passed in as its result. -/

/-- The command-visible slots of AppState (lib.rs): state machine, stored config,
stored selection. The backend slot is modelled separately. -/
structure AppState where
  state_machine : StateMachine
  config : Option CaptureConfig
  selection : Option SelectionResult
deriving DecidableEq

/-- start_capture from ipc/commands.rs. `portal` is the result of the
backend.request_selection round trip. Returns the AppState after the call and
the command's Result. -/
def startCapture (st : AppState) (config : CaptureConfig)
    (portal : Except CaptureBackendError SelectionResult) :
    AppState × Except String CaptureState :=
  match config.validate with
  | .error err =>
      let e : CaptureError :=
        { code := ErrorCode.invalidConfig, message := err.field ++ ": " ++ err.message }
      let sm := (st.state_machine.setError e).1
      ({ st with state_machine := sm }, Except.error e.message)
  | .ok _ =>
      let st₁ : AppState := { st with config := some config }
      match st₁.state_machine.transition CaptureState.selecting with
      | (sm₁, .error e) => ({ st₁ with state_machine := sm₁ }, Except.error e.message)
      | (sm₁, .ok _) =>
          let st₂ : AppState := { st₁ with state_machine := sm₁ }
          match portal with
          | .ok sel =>
              let st₃ : AppState := { st₂ with selection := some sel }
              match st₃.state_machine.transition CaptureState.recording with
              | (sm₂, .ok ns) => ({ st₃ with state_machine := sm₂ }, Except.ok ns)
              | (sm₂, .error e) =>
                  ({ st₃ with state_machine := sm₂ }, Except.error e.message)
          | .error be =>
              let e := backendErrorToCaptureError be
              let sm₂ := (st₂.state_machine.setError e).1
              ({ st₂ with state_machine := sm₂, config := none }, Except.error e.message)

/-- C6 counterexample: from a fresh Idle state, start_capture with an invalid
config (fps = 0) leaves the state machine in Error, not in its prior state Idle:
the state is not the same after the failed call as before it. -/
theorem invalid_config_changes_state :
    let st₀ : AppState := { state_machine := StateMachine.new, config := none, selection := none }
    let cfg : CaptureConfig :=
      { source := .screen, fps := 0, include_cursor := true,
        audio := { system := false, mic := false }, container := .mp4,
        output_path := "/tmp/out.mp4" }
    let after := (startCapture st₀ cfg (Except.error (.internal "unused"))).1
    st₀.state_machine.state = CaptureState.idle
    ∧ after.state_machine.state = CaptureState.error
    ∧ after.state_machine.state ≠ st₀.state_machine.state := by
  refine ⟨rfl, rfl, by decide⟩

/-- C6 (amended): on an invalid configuration, start_capture fails before any
transition-table operation — the config and selection slots are untouched — but
the state machine is moved to Error via set_error, recording the field-tagged
InvalidConfig error; the command returns the error message. -/
theorem invalid_config_sets_error_state (st : AppState) (cfg : CaptureConfig)
    (portal : Except CaptureBackendError SelectionResult) (err : ConfigError)
    (h : cfg.validate = .error err) :
    (startCapture st cfg portal).1.state_machine.state = CaptureState.error
    ∧ (startCapture st cfg portal).1.state_machine.last_error
        = some { code := ErrorCode.invalidConfig,
                 message := err.field ++ ": " ++ err.message }
    ∧ (startCapture st cfg portal).1.config = st.config
    ∧ (startCapture st cfg portal).1.selection = st.selection
    ∧ (startCapture st cfg portal).2
        = Except.error (err.field ++ ": " ++ err.message) := by
  simp [startCapture, h, StateMachine.setError]

/-- Witness for C6 (amended): concrete invalid config (empty output path). -/
theorem invalid_config_sets_error_state_witness :
    let st₀ : AppState := { state_machine := StateMachine.new, config := none, selection := none }
    let cfg : CaptureConfig :=
      { source := .screen, fps := 30, include_cursor := true,
        audio := { system := false, mic := false }, container := .mp4,
        output_path := "" }
    (startCapture st₀ cfg (Except.error (.internal "unused"))).1.state_machine.state
        = CaptureState.error
    ∧ (startCapture st₀ cfg (Except.error (.internal "unused"))).1.state_machine.last_error
        = some { code := ErrorCode.invalidConfig,
                 message := "output_path" ++ ": " ++ "Output path cannot be empty" } := by
  intro st₀ cfg
  have h := invalid_config_sets_error_state st₀ cfg (Except.error (.internal "unused"))
    { field := "output_path", message := "Output path cannot be empty" } (by rfl)
  exact ⟨h.1, h.2.1⟩

/-! ## capture/linux/encoding.rs.
The external GStreamer registry is a parameter: `find` says whether
ElementFactory::find returns a factory for a name, `createOk` whether
factory.create().build() succeeds, `initOk` whether gstreamer::init() succeeds. -/

/-- The observable behaviour of the external GStreamer registry at call time. -/
structure GstRegistry where
  initOk : Bool
  find : String → Bool
  createOk : String → Bool

/-- H264_ENCODERS from encoding.rs (hardware first, software fallback last). -/
def H264_ENCODERS : List String := ["vaapih264enc", "nvh264enc", "x264enc"]

/-- AAC_ENCODERS from encoding.rs. -/
def AAC_ENCODERS : List String := ["fdkaacenc", "voaacenc", "avenc_aac"]

/-- OPUS_ENCODERS from encoding.rs. -/
def OPUS_ENCODERS : List String := ["opusenc"]

/-- The `for encoder in list { if find ∧ create-ok { return } }` loop used by the
detection functions: first candidate the registry can actually instantiate. -/
def firstInstantiable (reg : GstRegistry) (encoders : List String) : Option String :=
  encoders.find? (fun e => reg.find e && reg.createOk e)

/-- detect_available_encoder from encoding.rs. -/
def detect_available_encoder (reg : GstRegistry) : Option String :=
  if !reg.initOk then none
  else firstInstantiable reg H264_ENCODERS

/-- get_muxer_for_container from encoding.rs. -/
def get_muxer_for_container : ContainerFormat → String
  | .mp4 => "mp4mux"
  | .mkv => "matroskamux"

/-- detect_available_audio_encoder from encoding.rs: try the container's own
family; for Mkv only, fall back to the AAC family before giving up. -/
def detect_available_audio_encoder (reg : GstRegistry) (container : ContainerFormat) :
    Option String :=
  if !reg.initOk then none
  else
    let encoders : List String :=
      match container with
      | .mp4 => AAC_ENCODERS
      | .mkv => OPUS_ENCODERS
    match firstInstantiable reg encoders with
    | some e => some e
    | none =>
        if container = ContainerFormat.mkv then firstInstantiable reg AAC_ENCODERS
        else none

/-- C8 counterexample: in a registry where only "opusenc" is instantiable, Mp4
audio negotiation returns none without trying the other container's (Opus)
family, although that family has an instantiable candidate. -/
theorem mp4_audio_negotiation_no_fallback :
    let reg : GstRegistry :=
      { initOk := true, find := fun s => s == "opusenc", createOk := fun _ => true }
    detect_available_audio_encoder reg ContainerFormat.mp4 = none
    ∧ "opusenc" ∈ OPUS_ENCODERS
    ∧ (reg.find "opusenc" && reg.createOk "opusenc") = true
    ∧ detect_available_audio_encoder reg ContainerFormat.mkv = some "opusenc" := by
  refine ⟨rfl, by decide, rfl, rfl⟩

/-- C8 (amended): the container-to-muxer mapping is total and constant
(Mp4 → mp4mux, Mkv → matroskamux); audio negotiation for Mkv falls back to the
Mp4 family's AAC encoders when no Opus encoder is instantiable, but for Mp4
there is no fallback: it returns none exactly when no AAC encoder is
instantiable, regardless of the Opus family. -/
theorem muxer_total_and_audio_fallback_mkv_only (reg : GstRegistry)
    (h : reg.initOk = true) :
    get_muxer_for_container ContainerFormat.mp4 = "mp4mux"
    ∧ get_muxer_for_container ContainerFormat.mkv = "matroskamux"
    ∧ (detect_available_audio_encoder reg ContainerFormat.mp4 = none
        ↔ ∀ e ∈ AAC_ENCODERS, ¬(reg.find e && reg.createOk e) = true)
    ∧ (detect_available_audio_encoder reg ContainerFormat.mkv = none
        ↔ ∀ e ∈ OPUS_ENCODERS ++ AAC_ENCODERS, ¬(reg.find e && reg.createOk e) = true) := by
  refine ⟨rfl, rfl, ?_, ?_⟩
  · simp only [detect_available_audio_encoder, h, Bool.not_true, Bool.false_eq_true,
      if_false, firstInstantiable]
    constructor
    · intro hnone
      cases hfind : AAC_ENCODERS.find? (fun e => reg.find e && reg.createOk e) with
      | none => exact fun e he => List.find?_eq_none.mp hfind e he
      | some v => simp [hfind] at hnone
    · intro hall
      have : AAC_ENCODERS.find? (fun e => reg.find e && reg.createOk e) = none :=
        List.find?_eq_none.mpr hall
      simp [this]
  · simp only [detect_available_audio_encoder, h, Bool.not_true, Bool.false_eq_true,
      if_false, firstInstantiable]
    constructor
    · intro hnone e he
      rcases List.mem_append.mp he with hop | haac
      · cases hfind : OPUS_ENCODERS.find? (fun e => reg.find e && reg.createOk e) with
        | none => exact List.find?_eq_none.mp hfind e hop
        | some v => simp [hfind] at hnone
      · cases hfind : OPUS_ENCODERS.find? (fun e => reg.find e && reg.createOk e) with
        | none =>
            cases hfind₂ : AAC_ENCODERS.find? (fun e => reg.find e && reg.createOk e) with
            | none => exact List.find?_eq_none.mp hfind₂ e haac
            | some v => simp [hfind, hfind₂] at hnone
        | some v => simp [hfind] at hnone
    · intro hall
      have hop : OPUS_ENCODERS.find? (fun e => reg.find e && reg.createOk e) = none :=
        List.find?_eq_none.mpr (fun e he => hall e (List.mem_append.mpr (Or.inl he)))
      have haac : AAC_ENCODERS.find? (fun e => reg.find e && reg.createOk e) = none :=
        List.find?_eq_none.mpr (fun e he => hall e (List.mem_append.mpr (Or.inr he)))
      simp [hop, haac]

/-- Witness for C8 (amended): a registry with only "x264enc" and "voaacenc"
instantiable; Mp4 finds voaacenc (so the none-iff gives a both-sides-false
instance), Mkv's none-characterization likewise. -/
theorem muxer_total_and_audio_fallback_mkv_only_witness :
    let reg : GstRegistry :=
      { initOk := true, find := fun s => s == "voaacenc" || s == "x264enc",
        createOk := fun _ => true }
    get_muxer_for_container ContainerFormat.mp4 = "mp4mux"
    ∧ (detect_available_audio_encoder reg ContainerFormat.mp4 = none
        ↔ ∀ e ∈ AAC_ENCODERS, ¬(reg.find e && reg.createOk e) = true) := by
  intro reg
  have h := muxer_total_and_audio_fallback_mkv_only reg (by rfl)
  exact ⟨h.1, h.2.2.1⟩

/-! ## capture/fake/backend.rs.
The atomics and mutex-held fields of FakeCaptureBackend are flattened into plain
fields; Instant is a Nat clock reading supplied by the caller; the image save in
capture_screenshot writes the output path into an explicit file list, with its
possible IO failure passed in as `saveOk`. -/

/-- FakeError from fake/backend.rs. -/
inductive FakeError where
  | permissionDenied
  | portalError
  | noSource
deriving DecidableEq

/-- The state of a FakeCaptureBackend instance. -/
structure FakeState where
  should_succeed : Bool
  error_type : FakeError
  fake_node_id : Nat
  selection_count : Nat
  cancel_count : Nat
  is_recording : Bool
  is_paused : Bool
  recording_start : Option Nat
  recording_output_path : Option String
  start_recording_count : Nat
  stop_recording_count : Nat
  pause_recording_count : Nat
  resume_recording_count : Nat
deriving DecidableEq

/-- FakeCaptureBackend::new. -/
def FakeState.new : FakeState :=
  { should_succeed := true
    error_type := FakeError.permissionDenied
    fake_node_id := 42
    selection_count := 0
    cancel_count := 0
    is_recording := false
    is_paused := false
    recording_start := none
    recording_output_path := none
    start_recording_count := 0
    stop_recording_count := 0
    pause_recording_count := 0
    resume_recording_count := 0 }

/-- FakeCaptureBackend::request_selection. -/
def fakeRequestSelection (s : FakeState) :
    FakeState × Except CaptureBackendError SelectionResult :=
  let s₁ := { s with selection_count := s.selection_count + 1 }
  if s₁.should_succeed then
    (s₁, Except.ok
      { node_id := s₁.fake_node_id, stream_fd := none,
        width := some 1920, height := some 1080 })
  else
    (s₁, Except.error (match s₁.error_type with
      | .permissionDenied => .permissionDenied "User cancelled"
      | .portalError => .portalError "Portal unavailable"
      | .noSource => .noSourceAvailable "No display found"))

/-- FakeCaptureBackend::cancel_selection. -/
def fakeCancelSelection (s : FakeState) : FakeState × Except CaptureBackendError Unit :=
  ({ s with cancel_count := s.cancel_count + 1 }, Except.ok ())

/-- FakeCaptureBackend::capture_screenshot. `fs` is the set of existing files;
`saveOk` is whether the placeholder-PNG save succeeds. -/
def fakeCaptureScreenshot (saveOk : Bool) (fs : List String) (s : FakeState)
    (sel : SelectionResult) (output_path : String) :
    FakeState × List String × Except CaptureBackendError ScreenshotResult :=
  if !s.should_succeed then
    (s, fs, Except.error (match s.error_type with
      | .permissionDenied => .permissionDenied "Screenshot permission denied"
      | .portalError => .portalError "Portal unavailable for screenshot"
      | .noSource => .noSourceAvailable "No display for screenshot"))
  else
    let width := sel.width.getD 100
    let height := sel.height.getD 100
    if saveOk then
      (s, output_path :: fs, Except.ok { path := output_path, width := width, height := height })
    else
      (s, fs, Except.error (.internal "Failed to save placeholder PNG"))

/-- FakeCaptureBackend::start_recording. `now` is the Instant read at the call;
the selection is received but unused, as in the source (`let _ = selection`). -/
def fakeStartRecording (s : FakeState) (_sel : SelectionResult) (cfg : CaptureConfig)
    (now : Nat) : FakeState × Except CaptureBackendError Unit :=
  let s₁ := { s with start_recording_count := s.start_recording_count + 1 }
  if !s₁.should_succeed then
    (s₁, Except.error (match s₁.error_type with
      | .permissionDenied => .permissionDenied "Recording permission denied"
      | .portalError => .portalError "Recording portal error"
      | .noSource => .noSourceAvailable "No source for recording"))
  else if s₁.is_recording then
    (s₁, Except.error (.internal "Recording already in progress"))
  else
    ({ s₁ with is_recording := true, recording_start := some now,
               recording_output_path := some cfg.output_path },
     Except.ok ())

/-- FakeCaptureBackend::stop_recording. `now` is the Instant read at the call. -/
def fakeStopRecording (s : FakeState) (now : Nat) :
    FakeState × Except CaptureBackendError RecordingResult :=
  let s₁ := { s with stop_recording_count := s.stop_recording_count + 1 }
  if !s₁.is_recording then
    (s₁, Except.error (.internal "No recording in progress"))
  else
    let duration_ms := match s₁.recording_start with
      | some t => now - t
      | none => 0
    let output_path := s₁.recording_output_path.getD "/tmp/fake_recording.mp4"
    ({ s₁ with is_recording := false, is_paused := false,
               recording_start := none, recording_output_path := none },
     Except.ok { path := output_path, duration_ms := duration_ms, width := 1920, height := 1080 })

/-- FakeCaptureBackend::pause_recording. -/
def fakePauseRecording (s : FakeState) : FakeState × Except CaptureBackendError Unit :=
  let s₁ := { s with pause_recording_count := s.pause_recording_count + 1 }
  if !s₁.is_recording then
    (s₁, Except.error (.internal "No recording in progress"))
  else if s₁.is_paused then
    (s₁, Except.error (.internal "Recording is already paused"))
  else
    ({ s₁ with is_paused := true }, Except.ok ())

/-- FakeCaptureBackend::resume_recording. -/
def fakeResumeRecording (s : FakeState) : FakeState × Except CaptureBackendError Unit :=
  let s₁ := { s with resume_recording_count := s.resume_recording_count + 1 }
  if !s₁.is_recording then
    (s₁, Except.error (.internal "No recording in progress"))
  else if !s₁.is_paused then
    (s₁, Except.error (.internal "Recording is not paused"))
  else
    ({ s₁ with is_paused := false }, Except.ok ())

/-! ## capture/linux/pipeline.rs.
The GStreamer engine's responses are environment parameters: whether
set_state to a given run state succeeds, what the bus reports while waiting
for end-of-stream, and whether the output file exists at verification time. -/

/-- The engine-side run state of a pipeline (GStreamer Null/Paused/Playing). -/
inductive GstRunState where
  | nullState
  | pausedState
  | playingState
deriving DecidableEq

/-- What the bounded bus wait observes: end-of-stream, a hard error, or timeout. -/
inductive BusOutcome where
  | eos
  | busError (msg : String)
  | timeout
deriving DecidableEq

/-- The external effects surrounding one pipeline call. `probeW`/`probeH` are the
frame dimensions the screenshot pad probe captured (0 when none seen). -/
structure GstEnv where
  reg : GstRegistry
  parseOk : Bool
  setStateOk : GstRunState → Bool
  bus : BusOutcome
  fileExists : Bool
  probeW : Nat
  probeH : Nat

/-- RecordingPipeline from pipeline.rs, with the engine graph handle replaced by
its run state. -/
structure PipelineModel where
  output_path : String
  start_time : Option Nat
  width : Nat
  height : Nat
  gst : GstRunState
deriving DecidableEq

/-- The audio-encoder requirement inside RecordingPipeline::new: when any audio
is requested, a suitable audio encoder must be negotiable for the container. -/
def audioEncoderCheck (reg : GstRegistry) (container : ContainerFormat)
    (audio : AudioConfig) : Except CaptureBackendError Unit :=
  if audio.mic || audio.system then
    match detect_available_audio_encoder reg container with
    | none => Except.error (.internal "No audio encoder available")
    | some _ => Except.ok ()
  else Except.ok ()

/-- RecordingPipeline::new: detects a video encoder, and an audio encoder when
any audio is requested; parses the graph description; dimensions fall back to
1920x1080. (fps is unused in the source; the textual graph description handed
to the engine is not observable and not modelled.) -/
def RecordingPipeline.new (env : GstEnv) (_node_id : Nat) (_stream_fd : Option Int)
    (output_path : String) (_fps : Nat) (container : ContainerFormat)
    (audio : AudioConfig) (width : Option Nat) (height : Option Nat) :
    Except CaptureBackendError PipelineModel :=
  if !env.reg.initOk then
    Except.error (.internal "Failed to initialize GStreamer")
  else
    match detect_available_encoder env.reg with
    | none => Except.error (.internal "No H.264 encoder available")
    | some _ =>
        match audioEncoderCheck env.reg container audio with
        | .error e => Except.error e
        | .ok _ =>
            if !env.parseOk then
              Except.error (.internal "Failed to create pipeline")
            else
              Except.ok { output_path := output_path, start_time := none,
                          width := width.getD 1920, height := height.getD 1080,
                          gst := GstRunState.nullState }

/-- RecordingPipeline::start: set_state(Paused) then set_state(Playing), then
record the start timestamp. -/
def RecordingPipeline.start (env : GstEnv) (now : Nat) (p : PipelineModel) :
    Except CaptureBackendError PipelineModel :=
  if !(env.setStateOk GstRunState.pausedState) then
    Except.error (.internal "Failed to pause pipeline for linking")
  else if !(env.setStateOk GstRunState.playingState) then
    Except.error (.internal "Failed to start pipeline")
  else
    Except.ok { p with gst := GstRunState.playingState, start_time := some now }

/-- RecordingPipeline::pause: set_state(Paused); no sub-state check of its own. -/
def RecordingPipeline.pause (env : GstEnv) (p : PipelineModel) :
    Except CaptureBackendError PipelineModel :=
  if !(env.setStateOk GstRunState.pausedState) then
    Except.error (.internal "Failed to pause pipeline")
  else
    Except.ok { p with gst := GstRunState.pausedState }

/-- RecordingPipeline::resume: set_state(Playing); no sub-state check of its own. -/
def RecordingPipeline.resume (env : GstEnv) (p : PipelineModel) :
    Except CaptureBackendError PipelineModel :=
  if !(env.setStateOk GstRunState.playingState) then
    Except.error (.internal "Failed to resume pipeline")
  else
    Except.ok { p with gst := GstRunState.playingState }

/-- RecordingPipeline::stop: computes the wall-clock duration since start, sends
end-of-stream, waits (bounded) on the bus — proceeding on timeout — tears the
graph down, verifies the output file exists and returns the result. -/
def RecordingPipeline.stop (env : GstEnv) (now : Nat) (p : PipelineModel) :
    Except CaptureBackendError RecordingResult :=
  let duration_ms := match p.start_time with
    | some t => now - t
    | none => 0
  let busResult : Except CaptureBackendError Unit :=
    match env.bus with
    | .eos => Except.ok ()
    | .busError msg => Except.error (.internal ("Pipeline error: " ++ msg))
    | .timeout => Except.ok ()
  match busResult with
  | .error e => Except.error e
  | .ok _ =>
      if !env.fileExists then
        Except.error (.internal "Recording file was not created")
      else
        Except.ok { path := p.output_path, duration_ms := duration_ms,
                    width := p.width, height := p.height }

/-! ## capture/linux/backend.rs.
The session slot's ActiveSession only holds external resources (portal proxy and
file descriptors); it is modelled as an occupied/empty slot. -/

/-- LinuxCaptureBackend: session slot and recording slot. -/
structure LinuxState where
  session : Option Unit
  recording : Option PipelineModel
deriving DecidableEq

/-- LinuxCaptureBackend::start_recording. -/
def linuxStartRecording (env : GstEnv) (now : Nat) (ls : LinuxState)
    (sel : SelectionResult) (cfg : CaptureConfig) :
    LinuxState × Except CaptureBackendError Unit :=
  if ls.recording.isSome then
    (ls, Except.error (.internal "Recording already in progress"))
  else
    match RecordingPipeline.new env sel.node_id sel.stream_fd cfg.output_path
        cfg.fps cfg.container cfg.audio sel.width sel.height with
    | .error e => (ls, Except.error e)
    | .ok p =>
        match RecordingPipeline.start env now p with
        | .error e => (ls, Except.error e)
        | .ok p₁ => ({ ls with recording := some p₁ }, Except.ok ())

/-- LinuxCaptureBackend::stop_recording: takes the pipeline out of the slot
first, so the slot is empty even when the pipeline's stop fails; the session is
cleared only on success (the `?` returns early). -/
def linuxStopRecording (env : GstEnv) (now : Nat) (ls : LinuxState) :
    LinuxState × Except CaptureBackendError RecordingResult :=
  match ls.recording with
  | none => (ls, Except.error (.internal "No recording in progress"))
  | some p =>
      let ls₁ : LinuxState := { ls with recording := none }
      match RecordingPipeline.stop env now p with
      | .error e => (ls₁, Except.error e)
      | .ok r => ({ session := none, recording := none }, Except.ok r)

/-- LinuxCaptureBackend::pause_recording: only checks that a recording is
active, then forwards to the pipeline (whose engine state changes in place). -/
def linuxPauseRecording (env : GstEnv) (ls : LinuxState) :
    LinuxState × Except CaptureBackendError Unit :=
  match ls.recording with
  | none => (ls, Except.error (.internal "No recording in progress"))
  | some p =>
      match RecordingPipeline.pause env p with
      | .error e => (ls, Except.error e)
      | .ok p₁ => ({ ls with recording := some p₁ }, Except.ok ())

/-- LinuxCaptureBackend::resume_recording: only checks that a recording is
active, then forwards to the pipeline. -/
def linuxResumeRecording (env : GstEnv) (ls : LinuxState) :
    LinuxState × Except CaptureBackendError Unit :=
  match ls.recording with
  | none => (ls, Except.error (.internal "No recording in progress"))
  | some p =>
      match RecordingPipeline.resume env p with
      | .error e => (ls, Except.error e)
      | .ok p₁ => ({ ls with recording := some p₁ }, Except.ok ())

/-- LinuxCaptureBackend::capture_screenshot: one-shot graph; on success the
dimensions come from the pad probe, falling back to the selection's dimensions
(only when both are present) and then to 1920x1080. -/
def linuxCaptureScreenshot (env : GstEnv) (sel : SelectionResult)
    (output_path : String) : Except CaptureBackendError ScreenshotResult :=
  if !env.reg.initOk then
    Except.error (.internal "Failed to initialize GStreamer")
  else if !env.parseOk then
    Except.error (.internal "Failed to create pipeline")
  else if !(env.setStateOk GstRunState.playingState) then
    Except.error (.internal "Failed to start pipeline")
  else
    match env.bus with
    | .busError msg => Except.error (.internal ("Pipeline error: " ++ msg))
    | .timeout => Except.error (.internal "Pipeline timed out")
    | .eos =>
        let dims : Nat × Nat :=
          if env.probeW = 0 || env.probeH = 0 then
            -- selection.width.zip(selection.height).unwrap_or((1920, 1080))
            match sel.width, sel.height with
            | some w, some h => (w, h)
            | _, _ => (1920, 1080)
          else
            (env.probeW, env.probeH)
        if !env.fileExists then
          Except.error (.internal "Screenshot file was not created")
        else
          Except.ok { path := output_path, width := dims.1, height := dims.2 }

/-! ## Helper lemmas about the pipeline lifecycle -/

/-- A successfully constructed pipeline carries the requested output path, no
start timestamp yet, and the dimension fallbacks. -/
theorem pipelineNew_fields {env : GstEnv} {n : Nat} {fd : Option Int} {op : String}
    {fps : Nat} {c : ContainerFormat} {a : AudioConfig} {w hgt : Option Nat}
    {p : PipelineModel}
    (h : RecordingPipeline.new env n fd op fps c a w hgt = Except.ok p) :
    p.output_path = op ∧ p.start_time = none
    ∧ p.width = w.getD 1920 ∧ p.height = hgt.getD 1080 := by
  unfold RecordingPipeline.new at h
  cases hi : env.reg.initOk <;> simp [hi] at h
  cases he : detect_available_encoder env.reg <;> simp [he] at h
  cases ha : audioEncoderCheck env.reg c a <;> simp [ha] at h
  cases hp : env.parseOk <;> simp [hp] at h
  obtain rfl := h
  exact ⟨rfl, rfl, rfl, rfl⟩

/-- A successful start only sets the run state to playing and records `now`. -/
theorem pipelineStart_fields {env : GstEnv} {now : Nat} {p p₁ : PipelineModel}
    (h : RecordingPipeline.start env now p = Except.ok p₁) :
    p₁ = { p with gst := GstRunState.playingState, start_time := some now } := by
  unfold RecordingPipeline.start at h
  cases h₁ : env.setStateOk GstRunState.pausedState <;> simp [h₁] at h
  cases h₂ : env.setStateOk GstRunState.playingState <;> simp [h₂] at h
  exact h.symm

/-- A successful stop returns the pipeline's stored path and dimensions, with the
wall-clock duration since the recorded start; the output file existed. -/
theorem pipelineStop_fields {env : GstEnv} {now : Nat} {p : PipelineModel}
    {r : RecordingResult}
    (h : RecordingPipeline.stop env now p = Except.ok r) :
    r = { path := p.output_path,
          duration_ms := match p.start_time with | some t => now - t | none => 0,
          width := p.width, height := p.height }
    ∧ env.fileExists = true := by
  unfold RecordingPipeline.stop at h
  cases hb : env.bus <;> simp [hb] at h
  all_goals cases hf : env.fileExists <;> simp [hf] at h
  all_goals exact ⟨h.symm, rfl⟩

/-! ## Concrete sample values used by witnesses -/

/-- A selection like the one the fake backend hands out. -/
def sampleSelection : SelectionResult :=
  { node_id := 42, stream_fd := none, width := some 1920, height := some 1080 }

/-- A valid configuration writing to /tmp/a.mp4. -/
def sampleConfigA : CaptureConfig :=
  { source := .screen, fps := 30, include_cursor := true,
    audio := { system := false, mic := false }, container := .mp4,
    output_path := "/tmp/a.mp4" }

/-- A valid configuration writing to /tmp/b.mp4. -/
def sampleConfigB : CaptureConfig :=
  { source := .screen, fps := 30, include_cursor := true,
    audio := { system := false, mic := false }, container := .mp4,
    output_path := "/tmp/b.mp4" }

/-- A fully cooperative engine environment: everything instantiable, every
set_state succeeds, the bus reports end-of-stream, the output file exists. -/
def sampleEnv : GstEnv :=
  { reg := { initOk := true, find := fun _ => true, createOk := fun _ => true },
    parseOk := true, setStateOk := fun _ => true, bus := .eos,
    fileExists := true, probeW := 0, probeH := 0 }

/-- A started pipeline recording to /tmp/r.mp4. -/
def samplePipeline : PipelineModel :=
  { output_path := "/tmp/r.mp4", start_time := some 0,
    width := 1920, height := 1080, gst := .playingState }

/-- The fake backend state right after a successful start with sampleConfigA
at clock 0. -/
def fakeAfterStart : FakeState :=
  { FakeState.new with
      start_recording_count := 1, is_recording := true,
      recording_start := some 0, recording_output_path := some "/tmp/a.mp4" }

/-! ## C2, C3, C4, C5: backend operation contracts -/

/-- C2: a second start_recording without an intervening stop_recording fails with
Internal and leaves the first recording untouched, on the fake backend (flag and
registered start time / output path unchanged, only the call counter moves) and
on the Linux backend (the occupied recording slot rejects the call before any
new pipeline is built, leaving the state identical). -/
theorem double_start_recording_rejected :
    (∀ (s s₁ : FakeState) (sel sel₂ : SelectionResult) (cfg cfg₂ : CaptureConfig)
        (t₁ t₂ : Nat),
      fakeStartRecording s sel cfg t₁ = (s₁, Except.ok ()) →
        s₁.is_recording = true
        ∧ (fakeStartRecording s₁ sel₂ cfg₂ t₂).2
            = Except.error (.internal "Recording already in progress")
        ∧ (fakeStartRecording s₁ sel₂ cfg₂ t₂).1
            = { s₁ with start_recording_count := s₁.start_recording_count + 1 })
    ∧ (∀ (env : GstEnv) (now : Nat) (ls : LinuxState) (p : PipelineModel)
        (sel : SelectionResult) (cfg : CaptureConfig),
      ls.recording = some p →
        linuxStartRecording env now ls sel cfg
          = (ls, Except.error (.internal "Recording already in progress"))) := by
  constructor
  · intro s s₁ sel sel₂ cfg cfg₂ t₁ t₂ h
    cases hb : s.should_succeed <;> cases hr : s.is_recording <;>
      simp [fakeStartRecording, hb, hr] at h ⊢
    obtain ⟨rfl, -⟩ := h
    simp [hb]
  · intro env now ls p sel cfg h
    simp [linuxStartRecording, h]

/-- Witness for C2: concrete first start on a fresh fake backend, then a second
start; and a Linux backend with an occupied slot. -/
theorem double_start_recording_rejected_witness :
    ((fakeStartRecording fakeAfterStart sampleSelection sampleConfigB 7).2
      = Except.error (.internal "Recording already in progress"))
    ∧ (linuxStartRecording sampleEnv 3
        { session := some (), recording := some samplePipeline }
        sampleSelection sampleConfigB).2
      = Except.error (.internal "Recording already in progress") := by
  constructor
  · exact (double_start_recording_rejected.1 FakeState.new fakeAfterStart
      sampleSelection sampleSelection sampleConfigA sampleConfigB 0 7 (by rfl)).2.1
  · exact congrArg Prod.snd (double_start_recording_rejected.2 sampleEnv 3
      { session := some (), recording := some samplePipeline } samplePipeline
      sampleSelection sampleConfigB rfl)

/-- C3: stop_recording with no active recording fails with Internal; with an
active recording it clears the active flag (an immediately following stop sees
nothing active) and returns a result whose path is the output path configured at
start_recording. Fake backend: full characterization; Linux backend: the slot is
taken before the pipeline is finalized, and on success the result path is the
stored pipeline's output path, which a successful start set from the config. -/
theorem stop_recording_contract :
    (∀ (s : FakeState) (now : Nat), s.is_recording = false →
      fakeStopRecording s now
        = ({ s with stop_recording_count := s.stop_recording_count + 1 },
           Except.error (.internal "No recording in progress")))
    ∧ (∀ (s s₁ : FakeState) (sel : SelectionResult) (cfg : CaptureConfig)
        (t₀ now now₂ : Nat),
      fakeStartRecording s sel cfg t₀ = (s₁, Except.ok ()) →
        (fakeStopRecording s₁ now).2
          = Except.ok { path := cfg.output_path, duration_ms := now - t₀,
                        width := 1920, height := 1080 }
        ∧ (fakeStopRecording s₁ now).1.is_recording = false
        ∧ (fakeStopRecording (fakeStopRecording s₁ now).1 now₂).2
            = Except.error (.internal "No recording in progress"))
    ∧ (∀ (env : GstEnv) (now : Nat) (ls : LinuxState), ls.recording = none →
      linuxStopRecording env now ls
        = (ls, Except.error (.internal "No recording in progress")))
    ∧ (∀ (env : GstEnv) (now : Nat) (ls : LinuxState) (p : PipelineModel),
      ls.recording = some p →
        (linuxStopRecording env now ls).1.recording = none
        ∧ (∀ r, (linuxStopRecording env now ls).2 = Except.ok r →
            r.path = p.output_path))
    ∧ (∀ (env : GstEnv) (now : Nat) (ls ls₁ : LinuxState) (sel : SelectionResult)
        (cfg : CaptureConfig),
      linuxStartRecording env now ls sel cfg = (ls₁, Except.ok ()) →
        ∃ p, ls₁.recording = some p ∧ p.output_path = cfg.output_path) := by
  refine ⟨?_, ?_, ?_, ?_, ?_⟩
  · intro s now h
    simp [fakeStopRecording, h]
  · intro s s₁ sel cfg t₀ now now₂ h
    cases hb : s.should_succeed <;> cases hr : s.is_recording <;>
      simp [fakeStartRecording, hb, hr] at h
    obtain ⟨rfl, -⟩ := h
    simp [fakeStopRecording]
  · intro env now ls h
    simp [linuxStopRecording, h]
  · intro env now ls p h
    refine ⟨?_, ?_⟩
    · simp only [linuxStopRecording, h]
      cases hs : RecordingPipeline.stop env now p <;> simp [hs]
    · intro r hr
      simp only [linuxStopRecording, h] at hr
      cases hs : RecordingPipeline.stop env now p with
      | error e => simp [hs] at hr
      | ok r₀ =>
          simp [hs] at hr
          subst hr
          exact ((pipelineStop_fields hs).1) ▸ rfl
  · intro env now ls ls₁ sel cfg h
    simp only [linuxStartRecording] at h
    cases hrec : ls.recording.isSome <;> simp [hrec] at h
    cases hnew : RecordingPipeline.new env sel.node_id sel.stream_fd cfg.output_path
        cfg.fps cfg.container cfg.audio sel.width sel.height with
    | error e => simp [hnew] at h
    | ok p =>
        cases hst : RecordingPipeline.start env now p with
        | error e => simp [hnew, hst] at h
        | ok p₁ =>
            simp [hnew, hst] at h
            obtain ⟨rfl, -⟩ := h
            refine ⟨p₁, by simp, ?_⟩
            have hp := (pipelineNew_fields hnew).1
            have hf := pipelineStart_fields hst
            subst hf
            simpa using hp

/-- Witness for C3: stop on a fresh fake backend fails; stop after the sample
start returns the configured path with the wall-clock duration; stop on an empty
Linux slot fails. -/
theorem stop_recording_contract_witness :
    (fakeStopRecording FakeState.new 5).2
        = Except.error (.internal "No recording in progress")
    ∧ (fakeStopRecording fakeAfterStart 1000).2
        = Except.ok { path := "/tmp/a.mp4", duration_ms := 1000, width := 1920, height := 1080 }
    ∧ (linuxStopRecording sampleEnv 9 { session := none, recording := none }).2
        = Except.error (.internal "No recording in progress") := by
  refine ⟨?_, ?_, ?_⟩
  · exact congrArg Prod.snd (stop_recording_contract.1 FakeState.new 5 rfl)
  · exact (stop_recording_contract.2.1 FakeState.new fakeAfterStart sampleSelection
      sampleConfigA 0 1000 1001 (by rfl)).1
  · exact congrArg Prod.snd (stop_recording_contract.2.2.1 sampleEnv 9
      { session := none, recording := none } rfl)

/-- C4 counterexample: on the Linux backend, pausing an already-paused recording
succeeds (the backend only checks that a recording is active and forwards to the
pipeline, which performs no sub-state check), instead of failing with Internal
as the claim requires of every backend implementation. -/
theorem linux_pause_while_paused_succeeds :
    ({ output_path := "/tmp/r.mp4", start_time := some 0, width := 1920,
       height := 1080, gst := .pausedState } : PipelineModel).gst
        = GstRunState.pausedState
    ∧ (linuxPauseRecording sampleEnv
        { session := some (),
          recording := some { output_path := "/tmp/r.mp4", start_time := some 0,
                              width := 1920, height := 1080,
                              gst := .pausedState } }).2
        = Except.ok () := by
  exact ⟨rfl, rfl⟩

/-- C4 (amended): the fake backend's pause/resume fail with Internal when no
recording is active or when already in the requested sub-state, and otherwise
toggle the paused flag; the Linux backend fails with Internal only when no
recording is active, and otherwise forwards to the pipeline with no sub-state
check, so (engine willing) the call succeeds whatever the current sub-state. -/
theorem pause_resume_contract :
    (∀ s : FakeState, s.is_recording = false →
      (fakePauseRecording s).2 = Except.error (.internal "No recording in progress")
      ∧ (fakeResumeRecording s).2 = Except.error (.internal "No recording in progress"))
    ∧ (∀ s : FakeState, s.is_recording = true → s.is_paused = true →
      (fakePauseRecording s).2 = Except.error (.internal "Recording is already paused"))
    ∧ (∀ s : FakeState, s.is_recording = true → s.is_paused = false →
      fakePauseRecording s
        = ({ s with pause_recording_count := s.pause_recording_count + 1,
                    is_paused := true }, Except.ok ()))
    ∧ (∀ s : FakeState, s.is_recording = true → s.is_paused = false →
      (fakeResumeRecording s).2 = Except.error (.internal "Recording is not paused"))
    ∧ (∀ s : FakeState, s.is_recording = true → s.is_paused = true →
      fakeResumeRecording s
        = ({ s with resume_recording_count := s.resume_recording_count + 1,
                    is_paused := false }, Except.ok ()))
    ∧ (∀ (env : GstEnv) (ls : LinuxState), ls.recording = none →
      (linuxPauseRecording env ls).2
          = Except.error (.internal "No recording in progress")
      ∧ (linuxResumeRecording env ls).2
          = Except.error (.internal "No recording in progress"))
    ∧ (∀ (env : GstEnv) (ls : LinuxState) (p : PipelineModel),
      ls.recording = some p → env.setStateOk GstRunState.pausedState = true →
        linuxPauseRecording env ls
          = ({ ls with recording := some { p with gst := GstRunState.pausedState } },
             Except.ok ()))
    ∧ (∀ (env : GstEnv) (ls : LinuxState) (p : PipelineModel),
      ls.recording = some p → env.setStateOk GstRunState.playingState = true →
        linuxResumeRecording env ls
          = ({ ls with recording := some { p with gst := GstRunState.playingState } },
             Except.ok ())) := by
  refine ⟨?_, ?_, ?_, ?_, ?_, ?_, ?_, ?_⟩
  · intro s h
    exact ⟨by simp [fakePauseRecording, h], by simp [fakeResumeRecording, h]⟩
  · intro s h₁ h₂
    simp [fakePauseRecording, h₁, h₂]
  · intro s h₁ h₂
    simp [fakePauseRecording, h₁, h₂]
  · intro s h₁ h₂
    simp [fakeResumeRecording, h₁, h₂]
  · intro s h₁ h₂
    simp [fakeResumeRecording, h₁, h₂]
  · intro env ls h
    exact ⟨by simp [linuxPauseRecording, h], by simp [linuxResumeRecording, h]⟩
  · intro env ls p h hok
    simp [linuxPauseRecording, h, RecordingPipeline.pause, hok]
  · intro env ls p h hok
    simp [linuxResumeRecording, h, RecordingPipeline.resume, hok]

/-- Witness for C4 (amended): concrete fake states and a concrete Linux state. -/
theorem pause_resume_contract_witness :
    (fakePauseRecording FakeState.new).2
        = Except.error (.internal "No recording in progress")
    ∧ (fakePauseRecording fakeAfterStart).1.is_paused = true
    ∧ (linuxPauseRecording sampleEnv
        { session := some (), recording := some samplePipeline }).2 = Except.ok () := by
  refine ⟨?_, ?_, ?_⟩
  · exact (pause_resume_contract.1 FakeState.new rfl).1
  · rw [(pause_resume_contract.2.2.1 fakeAfterStart rfl rfl)]
  · rw [(pause_resume_contract.2.2.2.2.2.2.1 sampleEnv
      { session := some (), recording := some samplePipeline } samplePipeline rfl rfl)]

/-- C5 counterexample: on the Linux backend, a successful screenshot with no
probe-reported dimensions and a selection carrying none returns 1920x1080, not
the claimed 100x100 fallback. -/
theorem linux_screenshot_fallback_not_100 :
    linuxCaptureScreenshot sampleEnv
        { node_id := 42, stream_fd := none, width := none, height := none }
        "/tmp/shot.png"
      = Except.ok { path := "/tmp/shot.png", width := 1920, height := 1080 }
    ∧ ((1920 : Nat), (1080 : Nat)) ≠ ((100 : Nat), (100 : Nat)) := by
  exact ⟨rfl, by decide⟩

/-- C5 (amended): on a successful fake-backend screenshot, width and height each
independently fall back from the selection's dimension to 100, the result path
is the requested output path and that file exists afterwards; on a successful
Linux-backend screenshot where the probe reported no dimensions, the result is
the selection's width and height when both are present and 1920x1080 otherwise,
and the output file was verified to exist. -/
theorem screenshot_dimension_fallback :
    (∀ (saveOk : Bool) (fs : List String) (s s₁ : FakeState) (sel : SelectionResult)
        (path : String) (fs₁ : List String) (r : ScreenshotResult),
      fakeCaptureScreenshot saveOk fs s sel path = (s₁, fs₁, Except.ok r) →
        r.width = sel.width.getD 100 ∧ r.height = sel.height.getD 100
        ∧ r.path = path ∧ path ∈ fs₁)
    ∧ (∀ (env : GstEnv) (sel : SelectionResult) (path : String) (r : ScreenshotResult),
      env.probeW = 0 ∨ env.probeH = 0 →
      linuxCaptureScreenshot env sel path = Except.ok r →
        r.path = path
        ∧ ((∃ w h, sel.width = some w ∧ sel.height = some h ∧ r.width = w ∧ r.height = h)
            ∨ ((sel.width = none ∨ sel.height = none) ∧ r.width = 1920 ∧ r.height = 1080))
        ∧ env.fileExists = true) := by
  constructor
  · intro saveOk fs s s₁ sel path fs₁ r h
    cases hb : s.should_succeed <;> simp [fakeCaptureScreenshot, hb] at h
    cases hs : saveOk <;> simp [hs] at h
    obtain ⟨-, hfs, hr⟩ := h
    obtain rfl := hr.symm
    exact ⟨rfl, rfl, rfl, by rw [← hfs]; exact List.mem_cons_self _ _⟩
  · intro env sel path r hprobe h
    unfold linuxCaptureScreenshot at h
    cases hi : env.reg.initOk <;> simp [hi] at h
    cases hp : env.parseOk <;> simp [hp] at h
    cases hst : env.setStateOk GstRunState.playingState <;> simp [hst] at h
    cases hb : env.bus <;> simp [hb] at h
    cases hf : env.fileExists <;> simp [hf] at h
    obtain rfl := h
    refine ⟨rfl, ?_, rfl⟩
    rcases hprobe with h0 | h0 <;>
      cases hw : sel.width <;> cases hh : sel.height <;> simp [h0, hw, hh]

/-- Witness for C5 (amended): a fake screenshot from a dimensionless selection
gives 100x100 with the file written; a Linux screenshot from a 64x48 selection
with no probe dimensions gives 64x48. -/
theorem screenshot_dimension_fallback_witness :
    ({ path := "/tmp/s.png", width := 100, height := 100 } : ScreenshotResult).width = 100
    ∧ "/tmp/s.png" ∈ ["/tmp/s.png"]
    ∧ ({ path := "/tmp/t.png", width := 64, height := 48 } : ScreenshotResult).path
        = "/tmp/t.png"
    ∧ sampleEnv.fileExists = true := by
  have h₁ := screenshot_dimension_fallback.1 true [] FakeState.new FakeState.new
    { node_id := 42, stream_fd := none, width := none, height := none } "/tmp/s.png"
    ["/tmp/s.png"] { path := "/tmp/s.png", width := 100, height := 100 } (by rfl)
  have h₂ := screenshot_dimension_fallback.2 sampleEnv
    { node_id := 42, stream_fd := none, width := some 64, height := some 48 } "/tmp/t.png"
    { path := "/tmp/t.png", width := 64, height := 48 } (Or.inl rfl) (by rfl)
  exact ⟨h₁.1, h₁.2.2.2, h₂.1, h₂.2.2⟩

/-! ## C9: pause/resume do not disturb the recorded start timestamp -/

/-- A pause or resume control call on a live pipeline, each carrying the engine
environment it runs against. -/
inductive PipelineCtl where
  | pauseCtl (env : GstEnv)
  | resumeCtl (env : GstEnv)

/-- The pipeline state after a control call (unchanged when the engine rejects
the run-state change, since pause/resume mutate nothing else). -/
def applyCtl (p : PipelineModel) : PipelineCtl → PipelineModel
  | .pauseCtl env =>
      match RecordingPipeline.pause env p with
      | .ok p₁ => p₁
      | .error _ => p
  | .resumeCtl env =>
      match RecordingPipeline.resume env p with
      | .ok p₁ => p₁
      | .error _ => p

/-- The pipeline state after a sequence of pause/resume calls. -/
def applyCtls (p : PipelineModel) (ops : List PipelineCtl) : PipelineModel :=
  ops.foldl applyCtl p

/-- One control call preserves every pipeline field except the engine run state. -/
theorem applyCtl_preserves (p : PipelineModel) (op : PipelineCtl) :
    (applyCtl p op).start_time = p.start_time
    ∧ (applyCtl p op).output_path = p.output_path
    ∧ (applyCtl p op).width = p.width
    ∧ (applyCtl p op).height = p.height := by
  cases op with
  | pauseCtl env =>
      simp only [applyCtl, RecordingPipeline.pause]
      cases henv : env.setStateOk GstRunState.pausedState <;> simp [henv]
  | resumeCtl env =>
      simp only [applyCtl, RecordingPipeline.resume]
      cases henv : env.setStateOk GstRunState.playingState <;> simp [henv]

/-- A sequence of control calls preserves every field except the run state. -/
theorem applyCtls_preserves (ops : List PipelineCtl) (p : PipelineModel) :
    (applyCtls p ops).start_time = p.start_time
    ∧ (applyCtls p ops).output_path = p.output_path
    ∧ (applyCtls p ops).width = p.width
    ∧ (applyCtls p ops).height = p.height := by
  induction ops generalizing p with
  | nil => exact ⟨rfl, rfl, rfl, rfl⟩
  | cons op ops ih =>
      have h₁ := applyCtl_preserves p op
      have h₂ := ih (applyCtl p op)
      exact ⟨h₂.1.trans h₁.1, h₂.2.1.trans h₁.2.1,
             h₂.2.2.1.trans h₁.2.2.1, h₂.2.2.2.trans h₁.2.2.2⟩

/-- C9: after a successful start at clock t₀, any sequence of pause/resume calls
leaves the start timestamp, output path and dimensions untouched, so a
subsequently successful stop at clock `now` reports duration now − t₀ and the
original path, however many pause/resume cycles happened in between; likewise
the fake backend's pause/resume leave its recorded start time and output path
unchanged. -/
theorem pause_resume_keep_duration_wall_clock (env₀ : GstEnv) (t₀ now : Nat)
    (p₀ p₁ : PipelineModel) (ops : List PipelineCtl)
    (h : RecordingPipeline.start env₀ t₀ p₀ = Except.ok p₁) :
    (applyCtls p₁ ops).start_time = some t₀
    ∧ (applyCtls p₁ ops).output_path = p₀.output_path
    ∧ (∀ (env₁ : GstEnv) (r : RecordingResult),
        RecordingPipeline.stop env₁ now (applyCtls p₁ ops) = Except.ok r →
          r.duration_ms = now - t₀ ∧ r.path = p₀.output_path)
    ∧ (∀ s : FakeState,
        (fakePauseRecording s).1.recording_start = s.recording_start
        ∧ (fakeResumeRecording s).1.recording_start = s.recording_start
        ∧ (fakePauseRecording s).1.recording_output_path = s.recording_output_path
        ∧ (fakeResumeRecording s).1.recording_output_path = s.recording_output_path) := by
  obtain rfl := pipelineStart_fields h
  have hp := applyCtls_preserves ops
    { p₀ with gst := GstRunState.playingState, start_time := some t₀ }
  refine ⟨hp.1, hp.2.1, ?_, ?_⟩
  · intro env₁ r hstop
    have hr := (pipelineStop_fields hstop).1
    subst hr
    constructor
    · show (match (applyCtls _ ops).start_time with
        | some t => now - t | none => 0) = now - t₀
      rw [hp.1]
    · exact hp.2.1
  · intro s
    unfold fakePauseRecording fakeResumeRecording
    cases hr : s.is_recording <;> cases hpd : s.is_paused <;> simp [hr, hpd]

/-- Witness for C9: a concrete pipeline started at clock 5, paused and resumed,
then stopped at clock 1005, reports 1000 ms and the original path. -/
theorem pause_resume_keep_duration_wall_clock_witness :
    ({ path := "/tmp/r.mp4", duration_ms := 1000, width := 1920,
       height := 1080 } : RecordingResult).duration_ms = 1005 - 5
    ∧ ({ path := "/tmp/r.mp4", duration_ms := 1000, width := 1920,
         height := 1080 } : RecordingResult).path = "/tmp/r.mp4"
    ∧ (applyCtls { samplePipeline with start_time := some 5 }
        [PipelineCtl.pauseCtl sampleEnv, PipelineCtl.resumeCtl sampleEnv]).start_time
      = some 5 := by
  have h := pause_resume_keep_duration_wall_clock sampleEnv 5 1005
    { samplePipeline with start_time := none, gst := GstRunState.nullState }
    { samplePipeline with start_time := some 5 }
    [PipelineCtl.pauseCtl sampleEnv, PipelineCtl.resumeCtl sampleEnv] (by rfl)
  have hstop := h.2.2.1 sampleEnv
    { path := "/tmp/r.mp4", duration_ms := 1000, width := 1920, height := 1080 } (by rfl)
  exact ⟨hstop.1, hstop.2, h.1⟩

/-! ## C10: the fake backend's paused-implies-recording invariant -/

/-- One call to the fake backend, with the inputs that call takes. -/
inductive FakeOp where
  | reqSelection
  | cancelSel
  | screenshot (saveOk : Bool) (sel : SelectionResult) (path : String)
  | startRec (sel : SelectionResult) (cfg : CaptureConfig) (now : Nat)
  | stopRec (now : Nat)
  | pauseRec
  | resumeRec

/-- The fake backend state after one call (results discarded). -/
def fakeStep (s : FakeState) : FakeOp → FakeState
  | .reqSelection => (fakeRequestSelection s).1
  | .cancelSel => (fakeCancelSelection s).1
  | .screenshot saveOk sel path => (fakeCaptureScreenshot saveOk [] s sel path).1
  | .startRec sel cfg now => (fakeStartRecording s sel cfg now).1
  | .stopRec now => (fakeStopRecording s now).1
  | .pauseRec => (fakePauseRecording s).1
  | .resumeRec => (fakeResumeRecording s).1

/-- Every single fake-backend call preserves paused-implies-recording. -/
theorem fakeStep_preserves_inv (s : FakeState) (op : FakeOp)
    (h : s.is_paused = true → s.is_recording = true) :
    (fakeStep s op).is_paused = true → (fakeStep s op).is_recording = true := by
  cases op <;>
    cases hb : s.should_succeed <;> cases hr : s.is_recording <;> cases hpd : s.is_paused <;>
    simp_all [fakeStep, fakeRequestSelection, fakeCancelSelection, fakeCaptureScreenshot,
      fakeStartRecording, fakeStopRecording, fakePauseRecording, fakeResumeRecording,
      apply_ite]

/-- C10: after any sequence of calls on a fresh fake backend, is_paused implies
is_recording; stop_recording on an active recording always resets the paused
flag, and start_recording never sets it, so a recording started after a stop
begins unpaused. -/
theorem fake_paused_implies_recording :
    (∀ ops : List FakeOp,
      (ops.foldl fakeStep FakeState.new).is_paused = true →
        (ops.foldl fakeStep FakeState.new).is_recording = true)
    ∧ (∀ (s : FakeState) (now : Nat), s.is_recording = true →
        (fakeStopRecording s now).1.is_paused = false)
    ∧ (∀ (s : FakeState) (sel : SelectionResult) (cfg : CaptureConfig) (now : Nat),
        (fakeStartRecording s sel cfg now).1.is_paused = s.is_paused) := by
  refine ⟨?_, ?_, ?_⟩
  · have key : ∀ (ops : List FakeOp) (s : FakeState),
        (s.is_paused = true → s.is_recording = true) →
        ((ops.foldl fakeStep s).is_paused = true →
          (ops.foldl fakeStep s).is_recording = true) := by
      intro ops
      induction ops with
      | nil => exact fun s h => h
      | cons op ops ih => exact fun s h => ih (fakeStep s op) (fakeStep_preserves_inv s op h)
    exact fun ops => key ops FakeState.new (fun h => absurd h (by simp [FakeState.new]))
  · intro s now h
    simp [fakeStopRecording, h]
  · intro s sel cfg now
    unfold fakeStartRecording
    cases hb : s.should_succeed <;> cases hr : s.is_recording <;> simp [hb, hr]

/-- Witness for C10: start then pause on a fresh backend ends paused and
recording; a concrete stop clears the paused flag. -/
theorem fake_paused_implies_recording_witness :
    (([FakeOp.startRec sampleSelection sampleConfigA 0,
       FakeOp.pauseRec].foldl fakeStep FakeState.new).is_recording = true)
    ∧ (fakeStopRecording { fakeAfterStart with is_paused := true } 9).1.is_paused = false
    ∧ (fakeStartRecording FakeState.new sampleSelection sampleConfigA 0).1.is_paused
        = FakeState.new.is_paused := by
  refine ⟨?_, ?_, ?_⟩
  · exact fake_paused_implies_recording.1
      [FakeOp.startRec sampleSelection sampleConfigA 0, FakeOp.pauseRec] (by rfl)
  · exact fake_paused_implies_recording.2.1 { fakeAfterStart with is_paused := true } 9 rfl
  · exact fake_paused_implies_recording.2.2 FakeState.new sampleSelection sampleConfigA 0

end OpenSnipping
